import Mathlib

/-!
Verification of the Papersio frontend session controller.

Shallow embedding of the client-side research-session logic of the Papersio
repository, taken from:

- src/frontend/components/loading_state.tsx (stage catalog, stageToProgress,
  monotone display-progress update),
- src/frontend/app/page.tsx (the Home component: handleSubmit, the WebSocket
  onopen / onmessage / onerror handlers),
- src/frontend/components/results_display.tsx (source partition and count),
- the PDF export button (PDFExportButton, bundled with
  src/frontend/components/workflow_stages.tsx),
- src/frontend/types/research.ts (data model).

JavaScript strings are modelled as Lean strings (all literals involved are
ASCII); the JavaScript numbers appearing here are small non-negative
integers, modelled as Nat. Math.round in loading_state.tsx is applied to
((index+1)/11)*100 for index < 11; none of these eleven values is anywhere
near a representation-sensitive half-integer boundary, so exact rational
rounding (floor of x + 1/2, which is also how JS rounds halves, upward)
coincides with the float computation and is used here.
-/

namespace Papersio

/-- JavaScript-style `a || b` for an optional string `a`: `undefined` and the
empty string are falsy and fall through to `b`. -/
def jsOr (a : Option String) (b : String) : String :=
  match a with
  | none => b
  | some s => if s = "" then b else s

/-- JavaScript `String.prototype.trim`: drop whitespace from both ends. -/
def jsTrim (s : List Char) : List Char :=
  ((s.dropWhile Char.isWhitespace).reverse.dropWhile Char.isWhitespace).reverse

/-- Trim of a whole string, as used for `query.trim()` in page.tsx. -/
def trimS (s : String) : String := String.mk (jsTrim s.toList)

/-- JavaScript `String.prototype.toLowerCase` (ASCII range). -/
def lowerS (s : List Char) : List Char := s.map Char.toLower

/-- Normalisation `stage.trim().toLowerCase()` of loading_state.tsx line 25. -/
def normalizeLabel (stage : String) : List Char := lowerS (jsTrim stage.toList)

/-- Boolean test: `needle` is a prefix of `hay`. -/
def isPrefixB : List Char → List Char → Bool
  | [], _ => true
  | _ :: _, [] => false
  | a :: as, b :: bs => a == b && isPrefixB as bs

/-- Boolean test: `needle` occurs contiguously inside `hay`
(JavaScript `String.prototype.includes`, used at loading_state.tsx line 26). -/
def isInfixB (needle : List Char) : List Char → Bool
  | [] => isPrefixB needle []
  | b :: bs => isPrefixB needle (b :: bs) || isInfixB needle bs

/-- STAGE_ORDER of loading_state.tsx lines 10-22, in source order. Note that
the first entry is the two-word label with a space, not a hyphen. -/
def STAGE_ORDER : List String :=
  ["checking memory", "planning", "searching", "analyzing", "writing",
   "critiquing", "revising", "re-critiquing", "saving", "finalizing",
   "finished"]

/-- Rounded division: `Math.round (a / b)` for naturals, computed exactly as
floor of a/b + 1/2 (see the file header for why this matches the float
computation in the source). -/
def jsRoundDiv (a b : Nat) : Nat := (2 * a + b) / (2 * b)

/-- stageToProgress of loading_state.tsx lines 24-31: normalise the label,
take the first catalog entry contained in it (source order), and map its
index through the rounding formula; 8 when nothing matches. -/
def stageToProgress (stage : String) : Nat :=
  let normalized := normalizeLabel stage
  match STAGE_ORDER.findIdx? (fun s => isInfixB s.toList normalized) with
  | none => 8
  | some index => jsRoundDiv ((index + 1) * 100) STAGE_ORDER.length

/-- Convenience predicate: the catalog entry at position `j` is contained in
the normalised form of `stage` (out-of-range positions use the empty
string default and are only ever used under a bound `j < 11`). -/
def stageMatches (stage : String) (j : Nat) : Bool :=
  isInfixB ((STAGE_ORDER.getD j "").toList) (normalizeLabel stage)

/-- Display-progress update of loading_state.tsx line 38:
`setDisplayProgress(prev => Math.max(prev, progress))`. -/
def displayStep (prev : Nat) (stage : String) : Nat :=
  max prev (stageToProgress stage)

/-- Sequence of displayProgress values over one loading session: the initial
`useState(progress)` of line 35 followed by one max-update per status
change (lines 37-39). -/
def displayTrace (first : String) (stages : List String) : List Nat :=
  List.scanl displayStep (stageToProgress first) stages

/-- Source record of src/frontend/types/research.ts. The discriminant
`source_type` is kept as a raw string so that the decode boundary can be
discussed; the typed values are "arxiv" and "web". -/
structure Source where
  title : String
  url : String
  source_type : String
  authors : Option (List String)
deriving DecidableEq

/-- ResearchResponse as assembled in page.tsx lines 50-55. `answer` is
copied from the frame verbatim, hence optional here (the frame may lack
it). -/
structure ResearchResponse where
  query : String
  answer : Option String
  sources : List Source
  search_strategy : String
deriving DecidableEq

/-- One decoded inbound frame: the JSON object `data` read by `ws.onmessage`
in page.tsx, restricted to the fields the handler touches. A missing field
is `none`; unknown extra fields are never read and hence not modelled. -/
structure Frame where
  type : Option String
  stage : Option String
  details : Option String
  answer : Option String
  sources : Option (List Source)
  content : Option String
deriving DecidableEq

/-- The single outbound request frame sent in `ws.onopen`
(page.tsx lines 35-41). -/
structure Request where
  query : String
  use_search : Bool
  mode : String
deriving DecidableEq

/-- One WebSocket owned by the controller: whether `close()` has been called
on it by the code, and the frames the code sent over it. -/
structure Channel where
  closed : Bool
  sent : List Request
deriving DecidableEq

/-- The React state of the Home component (page.tsx lines 11-16). `status`
is optional because `setStatus(data.stage)` stores whatever the frame
carried, possibly undefined. -/
structure SessionState where
  query : String
  isLoading : Bool
  error : Option String
  result : Option ResearchResponse
  status : Option String
  statusDetails : String
deriving DecidableEq

/-- Whole-controller state: the session plus every channel this controller
instance ever created, in creation order. -/
structure HomeState where
  session : SessionState
  channels : List Channel
deriving DecidableEq

/-- A freshly constructed WebSocket: not closed, nothing sent yet. -/
def newChannel : Channel := { closed := false, sent := [] }

/-- handleSubmit of page.tsx lines 18-41 up to the creation of the socket:
an empty trimmed query only sets the error message and returns; otherwise
the loading flags are reset and a new WebSocket is constructed. No
pre-existing channel is touched. -/
def handleSubmit (st : HomeState) : HomeState :=
  if jsTrim st.session.query.toList = [] then
    { st with session :=
        { st.session with error := some "Please enter a research question!" } }
  else
    { st with
      session :=
        { st.session with
          isLoading := true
          error := none
          result := none
          status := some "Starting..."
          statusDetails := "Connecting to research agents..." }
      channels := st.channels ++ [newChannel] }

/-- The `ws.onopen` handler (page.tsx lines 35-41): send exactly one request
frame with the trimmed captured query, `use_search: true`, `mode: 'ultra'`. -/
def onopen (capturedQuery : String) (ch : Channel) : Channel :=
  { ch with sent := ch.sent ++
      [{ query := trimS capturedQuery, use_search := true, mode := "ultra" }] }

/-- The `ws.onmessage` handler (page.tsx lines 43-63), acting on the session
state and on the channel the frame arrived on. `capturedQuery` is the
`query` state variable captured by the closure at submit time. Note the
final else: a frame whose `type` is none of the three known discriminants
falls through every branch and nothing at all happens. -/
def onmessage (capturedQuery : String) (frame : Frame) (s : SessionState)
    (ch : Channel) : SessionState × Channel :=
  if frame.type = some "status" then
    ({ s with status := frame.stage, statusDetails := jsOr frame.details "" }, ch)
  else if frame.type = some "result" then
    ({ s with
        result := some
          { query := trimS capturedQuery
            answer := frame.answer
            sources := frame.sources.getD []
            search_strategy := "Real-time Agent Research" }
        isLoading := false },
     { ch with closed := true })
  else if frame.type = some "error" then
    ({ s with error := frame.content, isLoading := false },
     { ch with closed := true })
  else
    (s, ch)

/-- The `ws.onerror` handler (page.tsx lines 65-69): set the connection
error message and clear the loading flag. The channel is NOT closed by the
code in this handler. -/
def onerror (s : SessionState) (ch : Channel) : SessionState × Channel :=
  ({ s with
      error := some "Connection failed. Make sure backend is running."
      isLoading := false },
   ch)

/-- arxivSources of results_display.tsx line 16. -/
def arxivSources (r : ResearchResponse) : List Source :=
  r.sources.filter (fun s => s.source_type == "arxiv")

/-- webSources of results_display.tsx line 17. -/
def webSources (r : ResearchResponse) : List Source :=
  r.sources.filter (fun s => s.source_type == "web")

/-- totalSources of results_display.tsx line 18. -/
def totalSources (r : ResearchResponse) : Nat :=
  (arxivSources r).length + (webSources r).length

/-- Local state of PDFExportButton: its own `isGenerating` and `error`
hooks, disjoint from the session state of Home. -/
structure ExportState where
  isGenerating : Bool
  error : Option String
deriving DecidableEq

/-- Outcome of the export fetch: success, or a non-ok response carrying an
optional structured `detail` string and the HTTP status text. -/
inductive ExportOutcome where
  | ok : ExportOutcome
  | fail : Option String → String → ExportOutcome
deriving DecidableEq

/-- handleDownload of PDFExportButton: on failure the thrown message
(`errorData.detail` or the status-text fallback) lands in the local error
state and `isGenerating` is cleared in the `finally` block; the session
state is passed through untouched, as the handler never calls any session
mutator. -/
def handleDownload (outcome : ExportOutcome) (_ex : ExportState)
    (s : SessionState) : ExportState × SessionState :=
  match outcome with
  | ExportOutcome.ok => ({ isGenerating := false, error := none }, s)
  | ExportOutcome.fail detail statusText =>
      ({ isGenerating := false
         error := some (jsOr detail ("PDF generation failed: " ++ statusText)) },
       s)

/-- Concrete request frame used by the counterexample traces. -/
def req0 : Request := { query := "q", use_search := true, mode := "ultra" }

/-- Concrete frame with an unknown discriminant. -/
def bogusFrame : Frame :=
  { type := some "bogus", stage := none, details := none, answer := none,
    sources := none, content := none }

/-- Concrete status frame arriving late, after its channel was closed. -/
def lateStatusFrame : Frame :=
  { type := some "status", stage := some "Late stage", details := none,
    answer := none, sources := none, content := none }

/-- Concrete result frame matching the test vector of the specification. -/
def resultFrame0 : Frame :=
  { type := some "result", stage := none, details := none,
    answer := some "final answer",
    sources := some [{ title := "A", url := "http://x", source_type := "arxiv",
                       authors := none }],
    content := none }

/-- Concrete session in the middle of a run (loading, no terminal field). -/
def openSession0 : SessionState :=
  { query := "q", isLoading := true, error := none, result := none,
    status := some "Searching...", statusDetails := "" }

/-- Concrete non-loading session (as after a cancellation per the spec). -/
def idleSession0 : SessionState :=
  { query := "q", isLoading := false, error := none, result := none,
    status := some "Searching...", statusDetails := "" }

/-- Concrete open channel carrying one sent request. -/
def openChannel0 : Channel := { closed := false, sent := [req0] }

/-- Concrete channel already closed, request sent. -/
def closedChannel0 : Channel := { closed := true, sent := [req0] }

/-- Fresh controller state with a nonempty pending query. -/
def st0 : HomeState :=
  { session := { query := "q", isLoading := false, error := none,
                 result := none, status := some "Initializing...",
                 statusDetails := "" },
    channels := [] }

/-- Fresh controller state whose query trims to empty. -/
def stEmpty : HomeState :=
  { session := { query := "   ", isLoading := false, error := none,
                 result := none, status := some "Initializing...",
                 statusDetails := "" },
    channels := [] }

/-- Controller state after submitting st0: one connecting channel. -/
def st1 : HomeState := handleSubmit st0

/-- The channel of st1 after its `onopen` fired (request sent). -/
def ch1 : Channel := onopen "q" (st1.channels.getD 0 { closed := true, sent := [] })

/-- Session/channel pair after a transport error on ch1. -/
def errStep : SessionState × Channel := onerror st1.session ch1

/-- Controller state after the transport error: loading flag cleared, the
channel never closed by the code. -/
def st2 : HomeState := { session := errStep.1, channels := [errStep.2] }

/-- Controller state after resubmitting while the first channel is still
unclosed. -/
def st3 : HomeState := handleSubmit st2

/-- Concrete response used by the source-partition witness. -/
def response0 : ResearchResponse :=
  { query := "q", answer := some "final answer",
    sources :=
      [{ title := "A", url := "http://x", source_type := "arxiv", authors := none },
       { title := "B", url := "http://y", source_type := "web", authors := none },
       { title := "C", url := "http://z", source_type := "arxiv", authors := none }],
    search_strategy := "Real-time Agent Research" }

/-! Helper lemmas (shared, not claim theorems). -/

/-- Head of a left scan is its seed. -/
theorem scanl_head? (f : Nat → String → Nat) (b : Nat) (l : List String) :
    (List.scanl f b l).head? = some b := by
  cases l <;> simp [List.scanl]

/-- A left scan by an inflationary step function is a non-decreasing chain. -/
theorem chain'_le_scanl (f : Nat → String → Nat) (h : ∀ a s, a ≤ f a s) :
    ∀ (l : List String) (b : Nat), List.Chain' (· ≤ ·) (List.scanl f b l) := by
  intro l
  induction l with
  | nil => intro b; simp
  | cons a t ih =>
    intro b
    rw [List.scanl_cons, List.singleton_append]
    refine List.chain'_cons'.mpr ⟨?_, ih (f b a)⟩
    intro y hy
    rw [scanl_head? f (f b a) t] at hy
    cases hy
    exact h b a

/-- findIdx? returns the position of the first hit, phrased through getD. -/
theorem findIdx?_from_getD {α : Type} (p : α → Bool) (d : α) :
    ∀ (l : List α) (i : Nat), i < l.length → p (l.getD i d) = true →
      (∀ j, j < i → p (l.getD j d) = false) → l.findIdx? p = some i := by
  intro l
  induction l with
  | nil =>
    intro i hi
    exact absurd hi (Nat.not_lt_zero i)
  | cons a t ih =>
    intro i hi hp hmin
    cases i with
    | zero =>
      rw [List.findIdx?_cons]
      simp only [List.getD_cons_zero] at hp
      simp [hp]
    | succ n =>
      have h0 : p a = false := by
        have := hmin 0 (Nat.succ_pos n)
        simpa using this
      rw [List.findIdx?_cons, if_neg (by simp [h0]), List.findIdx?_succ]
      have ht : t.findIdx? p = some n :=
        ih n (by simpa using hi) (by simpa using hp)
          (fun j hj => by
            have := hmin (j + 1) (Nat.succ_lt_succ hj)
            simpa using this)
      rw [ht]
      rfl

/-- Bridge between the Nat-division rounding of the embedding and the
rational rounding formula of the specification, for every catalog index. -/
theorem jsRoundDiv_eq_floor (i : Nat) (hi : i < 11) :
    ((jsRoundDiv ((i + 1) * 100) 11 : Nat) : ℤ)
      = ⌊(((i : ℚ) + 1) / 11) * 100 + 1 / 2⌋ := by
  interval_cases i <;> norm_num [jsRoundDiv]

/-- Partition of a source list into the arxiv and web filters preserves the
total length when every element carries one of the two discriminants. -/
theorem filter_partition_length (l : List Source)
    (h : ∀ s ∈ l, s.source_type = "arxiv" ∨ s.source_type = "web") :
    (l.filter (fun s => s.source_type == "arxiv")).length
      + (l.filter (fun s => s.source_type == "web")).length = l.length := by
  induction l with
  | nil => simp
  | cons a t ih =>
    have ha := h a (List.mem_cons_self a t)
    have ht : ∀ s ∈ t, s.source_type = "arxiv" ∨ s.source_type = "web" :=
      fun s hs => h s (List.mem_cons_of_mem a hs)
    rcases ha with ha | ha <;>
      simp [List.filter_cons, ha, ih ht, Nat.add_assoc, Nat.add_comm,
        Nat.add_left_comm]

/-- Occurrence counts split across the two filters. -/
theorem filter_partition_count (l : List Source)
    (h : ∀ s ∈ l, s.source_type = "arxiv" ∨ s.source_type = "web") :
    ∀ s : Source,
      l.count s = (l.filter (fun x => x.source_type == "arxiv")).count s
        + (l.filter (fun x => x.source_type == "web")).count s := by
  induction l with
  | nil => simp
  | cons a t ih =>
    intro s
    have ha := h a (List.mem_cons_self a t)
    have ht : ∀ x ∈ t, x.source_type = "arxiv" ∨ x.source_type = "web" :=
      fun x hx => h x (List.mem_cons_of_mem a hx)
    rcases ha with ha | ha <;>
      simp [List.filter_cons, ha, List.count_cons, ih ht] <;> omega

/-! Claim theorems. -/

/-- Claim C1: over any one loading session, the sequence of displayed
progress values is non-decreasing, and each update stores exactly the
maximum of the previous displayed value and the progress computed for the
newly reported stage label, so a later frame reporting an earlier or
unrecognised stage never lowers the displayed value. -/
theorem displayed_progress_monotone :
    (∀ (prev : Nat) (stage : String),
        displayStep prev stage = max prev (stageToProgress stage))
    ∧ ∀ (first : String) (stages : List String),
        List.Chain' (· ≤ ·) (displayTrace first stages) :=
  ⟨fun _ _ => rfl,
   fun first stages =>
     chain'_le_scanl displayStep (fun a s => le_max_left a (stageToProgress s))
       stages (stageToProgress first)⟩

/-- Claim C2: stageToProgress trims and lowercases the label, the first
catalog entry contained in it (catalog order breaking ties) at zero-based
ordinal i yields round(((i+1)/11)*100), no match yields 8; a label whose
first match is "searching" yields 27 and the label "finished" yields 100. -/
theorem stageToProgress_spec :
    (∀ (stage : String) (i : Nat), i < STAGE_ORDER.length →
        stageMatches stage i = true →
        (∀ j, j < i → stageMatches stage j = false) →
        (stageToProgress stage : ℤ) = ⌊(((i : ℚ) + 1) / 11) * 100 + 1 / 2⌋)
    ∧ (∀ stage : String,
        (∀ e ∈ STAGE_ORDER, isInfixB e.toList (normalizeLabel stage) = false) →
        stageToProgress stage = 8)
    ∧ stageToProgress "searching" = 27
    ∧ stageToProgress "finished" = 100 := by
  refine ⟨?_, ?_, by decide, by decide⟩
  · intro stage i hi hm hmin
    have hf : STAGE_ORDER.findIdx?
        (fun s => isInfixB s.toList (normalizeLabel stage)) = some i := by
      refine findIdx?_from_getD _ "" STAGE_ORDER i hi ?_ ?_
      · exact hm
      · intro j hj
        exact hmin j hj
    have hlen : STAGE_ORDER.length = 11 := by decide
    simp only [stageToProgress, hf, hlen]
    exact jsRoundDiv_eq_floor i (hlen ▸ hi)
  · intro stage h
    have hf : STAGE_ORDER.findIdx?
        (fun s => isInfixB s.toList (normalizeLabel stage)) = none :=
      List.findIdx?_eq_none_iff.mpr h
    simp only [stageToProgress, hf]

/-- Witness for C2 at concrete inputs: the label "searching" first matches
ordinal 2 and evaluates to the rounded formula, and a label matching no
catalog entry evaluates to 8. -/
theorem stageToProgress_spec_witness :
    (stageToProgress "searching" : ℤ) = ⌊(((2 : ℚ) + 1) / 11) * 100 + 1 / 2⌋
    ∧ stageToProgress "mystery stage" = 8 :=
  ⟨stageToProgress_spec.1 "searching" 2 (by decide) (by decide)
      (fun j hj => by interval_cases j <;> decide),
   stageToProgress_spec.2.1 "mystery stage" (by decide)⟩

/-- Counterexample for C3: a frame whose discriminant is "bogus", handled in
a session that is Open (loading, channel not closed), changes nothing: no
error is recorded, the session stays loading and the channel stays open,
contradicting the claimed ProtocolError / Terminated-Failed / close. -/
theorem bogus_frame_ignored_cex :
    onmessage "q" bogusFrame openSession0 openChannel0
        = (openSession0, openChannel0)
    ∧ openSession0.isLoading = true
    ∧ openSession0.error = none
    ∧ openChannel0.closed = false := by
  decide

/-- Amended C3: an inbound frame whose discriminant is not exactly one of
status, result, error (including a missing discriminant) is silently
ignored: the handler mutates neither the session nor the channel, so the
session stays Open indefinitely and no error is surfaced. -/
theorem unknown_discriminant_no_mutation (q : String) (frame : Frame)
    (s : SessionState) (ch : Channel)
    (h1 : frame.type ≠ some "status") (h2 : frame.type ≠ some "result")
    (h3 : frame.type ≠ some "error") :
    onmessage q frame s ch = (s, ch) := by
  simp only [onmessage, if_neg h1, if_neg h2, if_neg h3]

/-- Witness for the amended C3 at the concrete bogus frame. -/
theorem unknown_discriminant_no_mutation_witness :
    onmessage "q" bogusFrame openSession0 openChannel0
      = (openSession0, openChannel0) :=
  unknown_discriminant_no_mutation "q" bogusFrame openSession0 openChannel0
    (by decide) (by decide) (by decide)

/-- Claim C4: a result frame produces a response copying the answer
verbatim, copying the sources in order (empty when absent), setting the
query to the trimmed captured query and the fixed strategy label; the
session stops loading and the channel is closed. -/
theorem result_assembly (q : String) (frame : Frame) (s : SessionState)
    (ch : Channel) (h : frame.type = some "result") :
    (onmessage q frame s ch).1.result
        = some { query := trimS q, answer := frame.answer,
                 sources := frame.sources.getD [],
                 search_strategy := "Real-time Agent Research" }
    ∧ (onmessage q frame s ch).1.isLoading = false
    ∧ (onmessage q frame s ch).2.closed = true := by
  simp [onmessage, h]

/-- Witness for C4 at the test vector of the specification: one arxiv source
list is copied identically in content and order. -/
theorem result_assembly_witness :
    (onmessage "q" resultFrame0 openSession0 openChannel0).1.result
        = some { query := trimS "q", answer := resultFrame0.answer,
                 sources := resultFrame0.sources.getD [],
                 search_strategy := "Real-time Agent Research" }
    ∧ (onmessage "q" resultFrame0 openSession0 openChannel0).1.isLoading = false
    ∧ (onmessage "q" resultFrame0 openSession0 openChannel0).2.closed = true :=
  result_assembly "q" resultFrame0 openSession0 openChannel0 rfl

/-- Claim C5 evaluated on the code at the failing input: a status frame
delivered after its channel has been closed still mutates the session
(the handler carries no epoch or staleness guard, and no cancel operation
exists in the source at all), contrary to the required no-mutation. -/
theorem stale_frame_mutates_after_close :
    (onmessage "q" lateStatusFrame idleSession0 closedChannel0).1.status
        = some "Late stage"
    ∧ idleSession0.status = some "Searching..."
    ∧ onmessage "q" lateStatusFrame idleSession0 closedChannel0
        ≠ (idleSession0, closedChannel0) := by
  decide

/-- Counterexample for C6: from a fresh state, submit, let the open handler
send, suffer a transport error (which clears the loading flag but closes
nothing), and submit again: the second submit leaves the first channel
unclosed while opening a second one, so two channels are live at once and
no teardown of the prior channel ever happened. -/
theorem start_leaves_prior_channel_open_cex :
    st2.session.isLoading = false
    ∧ st2.channels.map Channel.closed = [false]
    ∧ st3.channels.map Channel.closed = [false, false]
    ∧ st3.channels.length = 2 := by
  decide

/-- Amended C6: handleSubmit never closes a prior channel; with a nonempty
trimmed query it appends one fresh connecting channel, leaving every
pre-existing channel, open or not, exactly as it was. -/
theorem start_no_teardown (st : HomeState)
    (h : jsTrim st.session.query.toList ≠ []) :
    (handleSubmit st).channels = st.channels ++ [newChannel]
    ∧ (handleSubmit st).channels.map Channel.closed
        = st.channels.map Channel.closed ++ [false] := by
  simp only [String.toList] at h
  constructor
  · simp [handleSubmit, h]
  · simp [handleSubmit, h, newChannel]

/-- Witness for the amended C6 at the post-error state st2. -/
theorem start_no_teardown_witness :
    (handleSubmit st2).channels = st2.channels ++ [newChannel]
    ∧ (handleSubmit st2).channels.map Channel.closed
        = st2.channels.map Channel.closed ++ [false] :=
  start_no_teardown st2 (by decide)

/-- Counterexample for C7: the first catalog entry is the space-separated
label "checking memory", not "checking-memory"; a label containing the
hyphenated string matches no entry and computes 8, not 9. -/
theorem stage_catalog_first_entry_cex :
    STAGE_ORDER.head? = some "checking memory"
    ∧ isInfixB ("checking-memory".toList) (normalizeLabel "checking-memory") = true
    ∧ stageToProgress "checking-memory" = 8 := by
  decide

/-- Amended C7: the first catalog entry is "checking memory" (with a space);
every stage label whose normalised form contains "checking memory" takes
ordinal 0 and computes jsRoundDiv 100 11 = 9, not the fallback 8. -/
theorem checking_memory_progress (stage : String)
    (h : isInfixB ("checking memory".toList) (normalizeLabel stage) = true) :
    stageToProgress stage = 9 := by
  have h2 : isInfixB
      ['c', 'h', 'e', 'c', 'k', 'i', 'n', 'g', ' ', 'm', 'e', 'm', 'o', 'r', 'y']
      (normalizeLabel stage) = true := h
  have hf : STAGE_ORDER.findIdx?
      (fun s => isInfixB s.toList (normalizeLabel stage)) = some 0 := by
    rw [STAGE_ORDER, List.findIdx?_cons]
    simp [h2]
  simp only [stageToProgress, hf]
  decide

/-- Witness for the amended C7 at a concrete mixed-case padded label. -/
theorem checking_memory_progress_witness :
    stageToProgress "  Checking Memory of agents " = 9 :=
  checking_memory_progress "  Checking Memory of agents " (by decide)

/-- Claim C8: the export exchange is independent of the research session:
whatever its outcome, the session state (state flags, result, error) is
returned unchanged, and a failure only records the detail string in the
local error state of the export button. -/
theorem export_failure_session_unchanged :
    (∀ (o : ExportOutcome) (ex : ExportState) (s : SessionState),
        (handleDownload o ex s).2 = s)
    ∧ (∀ (d : Option String) (t : String) (ex : ExportState) (s : SessionState),
        (handleDownload (ExportOutcome.fail d t) ex s).1.error
          = some (jsOr d ("PDF generation failed: " ++ t))) := by
  constructor
  · intro o ex s
    cases o <;> rfl
  · intro d t ex s
    rfl

/-- Claim C9: an empty trimmed query only records the validation error (no
session reset, no channel, nothing sent); a nonempty trimmed query resets
the session and opens one fresh channel with nothing sent yet; the open
handler sends exactly one request frame with the trimmed query,
use_search true and mode ultra; the message and error handlers never
send anything. -/
theorem start_validation_and_single_send :
    (∀ st : HomeState, jsTrim st.session.query.toList = [] →
        handleSubmit st
          = { st with session :=
                { st.session with
                  error := some "Please enter a research question!" } })
    ∧ (∀ st : HomeState, jsTrim st.session.query.toList ≠ [] →
        handleSubmit st
          = { st with
              session :=
                { st.session with
                  isLoading := true
                  error := none
                  result := none
                  status := some "Starting..."
                  statusDetails := "Connecting to research agents..." }
              channels := st.channels ++ [newChannel] })
    ∧ newChannel.sent = []
    ∧ (∀ (q : String) (ch : Channel),
        (onopen q ch).sent
          = ch.sent ++ [{ query := trimS q, use_search := true, mode := "ultra" }])
    ∧ (∀ (q : String) (frame : Frame) (s : SessionState) (ch : Channel),
        ((onmessage q frame s ch).2).sent = ch.sent)
    ∧ (∀ (s : SessionState) (ch : Channel), ((onerror s ch).2).sent = ch.sent) := by
  refine ⟨?_, ?_, rfl, fun _ _ => rfl, ?_, fun _ _ => rfl⟩
  · intro st h
    simp only [String.toList] at h
    simp [handleSubmit, h]
  · intro st h
    simp only [String.toList] at h
    simp [handleSubmit, h]
  · intro q frame s ch
    simp only [onmessage]
    split
    · rfl
    · split
      · rfl
      · split <;> rfl

/-- Witness for C9: the two validation branches at concrete states, with a
blank query and with the nonempty query of st0. -/
theorem start_validation_witness :
    handleSubmit stEmpty
      = { stEmpty with session :=
            { stEmpty.session with
              error := some "Please enter a research question!" } }
    ∧ handleSubmit st0
      = { st0 with
          session :=
            { st0.session with
              isLoading := true
              error := none
              result := none
              status := some "Starting..."
              statusDetails := "Connecting to research agents..." }
          channels := st0.channels ++ [newChannel] } :=
  ⟨start_validation_and_single_send.1 stEmpty (by decide),
   start_validation_and_single_send.2.1 st0 (by decide)⟩

/-- Claim C10: when every source is tagged arxiv or web, the display-layer
filters partition the list: each filter is an order-preserving sublist, a
source is in a filter exactly when it is in the list with the matching
tag, no source is in both, occurrence counts add up, and the displayed
total equals the original length. -/
theorem sources_partition (r : ResearchResponse)
    (h : ∀ s ∈ r.sources, s.source_type = "arxiv" ∨ s.source_type = "web") :
    (arxivSources r).Sublist r.sources
    ∧ (webSources r).Sublist r.sources
    ∧ (∀ s : Source, s ∈ r.sources → (s ∈ arxivSources r ∨ s ∈ webSources r))
    ∧ (∀ s : Source, ¬(s ∈ arxivSources r ∧ s ∈ webSources r))
    ∧ (∀ s : Source,
        r.sources.count s = (arxivSources r).count s + (webSources r).count s)
    ∧ totalSources r = r.sources.length := by
  refine ⟨List.filter_sublist r.sources, List.filter_sublist r.sources,
    ?_, ?_, filter_partition_count r.sources h, filter_partition_length r.sources h⟩
  · intro s hs
    rcases h s hs with ht | ht
    · exact Or.inl (List.mem_filter.mpr ⟨hs, by simp [ht]⟩)
    · exact Or.inr (List.mem_filter.mpr ⟨hs, by simp [ht]⟩)
  · rintro s ⟨h1, h2⟩
    rw [arxivSources, List.mem_filter] at h1
    rw [webSources, List.mem_filter] at h2
    have e1 := h1.2
    have e2 := h2.2
    simp_all

/-- Witness for C10 at the concrete three-source response. -/
theorem sources_partition_witness :
    totalSources response0 = response0.sources.length
    ∧ ∀ s : Source, ¬(s ∈ arxivSources response0 ∧ s ∈ webSources response0) :=
  ⟨(sources_partition response0 (by decide)).2.2.2.2.2,
   (sources_partition response0 (by decide)).2.2.2.1⟩

end Papersio
